import Mathlib

/-!
Shallow embedding of the tag-changer library (src/lib.rs), an ID3v1 tag
codec.  Byte streams are modelled as lists of naturals (every entry of a
real stream is below 256), Rust strings as lists of Unicode code points,
and the stream-manipulating functions as pure functions on the stream
contents.  The in-memory stream used by the test suite of the library
(`TestFile`) writes from position 0 without truncating, which `ID3v1.write`
models explicitly.
-/

set_option maxHeartbeats 1000000
set_option maxRecDepth 8000

/-- Rust `enum ReadError` with variants `IO(std::io::Error)` and `ID3`;
the io error payload is dropped, only the variant matters. -/
inductive ReadError where
  | ioErr : ReadError
  | id3 : ReadError
deriving DecidableEq, Repr

/-- UTF-8 encoding of a single code point, the byte sequence that the Rust
method `str::bytes` yields for one `char`. -/
def utf8EncodeChar (c : Nat) : List Nat :=
  if c < 128 then [c]
  else if c < 2048 then [192 + c / 64, 128 + c % 64]
  else if c < 65536 then [224 + c / 4096, 128 + c / 64 % 64, 128 + c % 64]
  else [240 + c / 262144, 128 + c / 4096 % 64, 128 + c / 64 % 64, 128 + c % 64]

/-- Rust `String::bytes` on the wrapped `ISO_8859_1` string: the UTF-8 byte
sequence of the characters of the string. -/
def strBytes (s : List Nat) : List Nat := s.flatMap utf8EncodeChar

/-- Rust `String::len`: the length in UTF-8 bytes, which is what the encoder
uses to compute the zero padding. -/
def strLen (s : List Nat) : Nat := (strBytes s).length

/-- Rust `impl From<&[u8]> for ISO_8859_1`: each byte becomes the character
with that code point (`c as char`). -/
def iso8859_1_from_bytes (bs : List Nat) : List Nat := bs.map (fun c => c)

/-- Rust `struct ID3v1`: five ISO-8859-1 text fields (modelled as code-point
lists) and the genre byte. -/
structure ID3v1 where
  title : List Nat
  artist : List Nat
  album : List Nat
  year : List Nat
  comment : List Nat
  genre : Nat
deriving DecidableEq, Repr

instance {α : Type} [DecidableEq α] : DecidableEq (Except ReadError α) := fun x y =>
  match x, y with
  | .ok a, .ok b =>
      if h : a = b then isTrue (by rw [h]) else isFalse (by simp [h])
  | .error a, .error b =>
      if h : a = b then isTrue (by rw [h]) else isFalse (by simp [h])
  | .ok _, .error _ => isFalse (by simp)
  | .error _, .ok _ => isFalse (by simp)

/-- Rust `impl TryFrom<Vec<u8>> for ID3v1`: reject inputs that are not
exactly 128 bytes, reject a first-three-byte marker other than "TAG"
(code points 84, 65, 71), otherwise slice the fixed-offset fields
(`value[3..=32]`, `[33..=62]`, `[63..=92]`, `[93..=96]`, `[97..=126]`)
and store the raw genre byte `value[127]`. -/
def ID3v1.tryFrom (value : List Nat) : Except ReadError ID3v1 :=
  if value.length ≠ 128 then .error .id3
  else if iso8859_1_from_bytes (value.take 3) ≠ [84, 65, 71] then .error .id3
  else .ok
      { title := iso8859_1_from_bytes ((value.drop 3).take 30)
        artist := iso8859_1_from_bytes ((value.drop 33).take 30)
        album := iso8859_1_from_bytes ((value.drop 63).take 30)
        year := iso8859_1_from_bytes ((value.drop 93).take 4)
        comment := iso8859_1_from_bytes ((value.drop 97).take 30)
        genre := value.getD 127 0 }

/-- One text field of `impl From<ID3v1> for Vec<u8>`: push every byte of the
string, then push zeros for the range `field.0.0.len()..width` (an empty
range when the string is at least `width` bytes long, so nothing is ever
truncated). -/
def encodeField (s : List Nat) (width : Nat) : List Nat :=
  strBytes s ++ List.replicate (width - strLen s) 0

/-- Rust `impl From<ID3v1> for Vec<u8>`: the "TAG" marker, the five
zero-padded text fields with widths 30, 30, 30, 4, 30, then the genre
byte. -/
def ID3v1.encode (tags : ID3v1) : List Nat :=
  [84, 65, 71] ++ encodeField tags.title 30 ++ encodeField tags.artist 30 ++
    encodeField tags.album 30 ++ encodeField tags.year 4 ++
    encodeField tags.comment 30 ++ [tags.genre]

/-- Rust `ID3v1::read`: seek to `End(-128)` (an io error when the stream is
shorter than 128 bytes), read exactly the final 128 bytes, and decode
them. -/
def ID3v1.read (contents : List Nat) : Except ReadError ID3v1 :=
  if contents.length < 128 then .error .ioErr
  else ID3v1.tryFrom (contents.drop (contents.length - 128))

/-- Rust `ID3v1::get_contents_without_tag`: when `ID3v1::read` succeeds the
end position is `End(-128)`, otherwise `End(0)`; then the stream is read
from the start up to that position. -/
def ID3v1.get_contents_without_tag (contents : List Nat) : List Nat :=
  let endPosition :=
    match ID3v1.read contents with
    | .ok _ => contents.length - 128
    | .error _ => contents.length
  contents.take endPosition

/-- Rust `ID3v1::write`: strip any trailing tag, append the encoded tag, and
write the whole buffer from position 0.  The stream is never truncated, so
old bytes past the written length survive, which the trailing
`contents.drop` models (it is always empty here because the written buffer
is at least as long as the original stream). -/
def ID3v1.write (tags : ID3v1) (contents : List Nat) : List Nat :=
  (ID3v1.get_contents_without_tag contents ++ ID3v1.encode tags) ++
    contents.drop (ID3v1.get_contents_without_tag contents ++ ID3v1.encode tags).length

/-- Rust `ID3v1::get_genre_str`, keyed on the genre byte.  The
`28..=191 => todo!(...)` arm panics, modelled as `none`; every other arm
returns its string.  Genre 24 is absent from the explicit arms and falls
through to the `_ => "Unknown"` catch-all. -/
def ID3v1.get_genre_str (genre : Nat) : Option String :=
  if genre = 0 then some "Blues"
  else if genre = 1 then some "Classic rock"
  else if genre = 2 then some "Country"
  else if genre = 3 then some "Dance"
  else if genre = 4 then some "Disco"
  else if genre = 5 then some "Funk"
  else if genre = 6 then some "Grunge"
  else if genre = 7 then some "Hip-hop"
  else if genre = 8 then some "Jazz"
  else if genre = 9 then some "Metal"
  else if genre = 10 then some "New age"
  else if genre = 11 then some "Oldies"
  else if genre = 12 then some "Other"
  else if genre = 13 then some "Pop"
  else if genre = 14 then some "Rythm and blues"
  else if genre = 15 then some "Rap"
  else if genre = 16 then some "Reggae"
  else if genre = 17 then some "Rock"
  else if genre = 18 then some "Techno"
  else if genre = 19 then some "Industrial"
  else if genre = 20 then some "Alternative"
  else if genre = 21 then some "Ska"
  else if genre = 22 then some "Death Metal"
  else if genre = 23 then some "Soundtrack"
  else if genre = 25 then some "Euro-techno"
  else if genre = 26 then some "Ambient"
  else if genre = 27 then some "Trip-hop"
  else if 28 ≤ genre ∧ genre ≤ 191 then none
  else some "Unknown"

/-- Trailing-NUL trimming, the normalization the spec compares tags under
(the code itself never trims its text fields). -/
def trimNul (s : List Nat) : List Nat := (s.reverse.dropWhile (fun c => c = 0)).reverse

/-- A tag whose title is 31 characters of 'a' (one byte over the 30-byte
width) and whose artist is the single character 'b'. -/
def bigTitleTag : ID3v1 :=
  { title := List.replicate 31 97, artist := [98], album := [], year := [],
    comment := [], genre := 0 }

/-- A tag whose title is the single character 'é' (code point 233, one
character but two UTF-8 bytes). -/
def accentTag : ID3v1 :=
  { title := [233], artist := [], album := [], year := [], comment := [], genre := 0 }

/-- The tag with title "newsong" and genre 5 used by the end-to-end
scenario of the spec. -/
def newTag : ID3v1 :=
  { title := [110, 101, 119, 115, 111, 110, 103], artist := [], album := [],
    year := [], comment := [], genre := 5 }

/-- The tag with title "testsong", artist "testartist" and genre 5 used by
the end-to-end scenario of the spec. -/
def oldTag : ID3v1 :=
  { title := [116, 101, 115, 116, 115, 111, 110, 103],
    artist := [116, 101, 115, 116, 97, 114, 116, 105, 115, 116],
    album := [], year := [], comment := [], genre := 5 }

/-- A small ASCII tag with title "hi" and genre 17 used as a concrete
round-trip input. -/
def hiTag : ID3v1 :=
  { title := [104, 105], artist := [], album := [], year := [], comment := [],
    genre := 17 }

/-- A 428-byte host stream: 300 filler bytes followed by a valid encoded
tag. -/
def demoContents : List Nat := List.replicate 300 1 ++ ID3v1.encode oldTag

/-- A 128-byte buffer with a valid marker whose genre byte is 28, inside the
unimplemented genre range. -/
def tagBuf28 : List Nat := [84, 65, 71] ++ (List.replicate 124 0 ++ [28])

/-- A 128-byte buffer of zeros: correct length, wrong marker. -/
def allZeroBuf : List Nat := List.replicate 128 0

/-- A minimal 128-byte stream that is exactly one valid tag block. -/
def plainTagBuf : List Nat := [84, 65, 71] ++ List.replicate 125 0

theorem iso8859_1_from_bytes_id (bs : List Nat) : iso8859_1_from_bytes bs = bs :=
  List.map_id' bs

theorem strBytes_ascii {s : List Nat} (h : ∀ c ∈ s, c < 128) : strBytes s = s := by
  induction s with
  | nil => rfl
  | cons a t ih =>
    have ha : a < 128 := h a (List.mem_cons_self a t)
    have ht := ih (fun c hc => h c (List.mem_cons_of_mem a hc))
    simp only [strBytes, List.flatMap_cons] at ht ⊢
    rw [ht, utf8EncodeChar, if_pos ha]
    rfl

theorem encodeField_length (s : List Nat) (w : Nat) :
    (encodeField s w).length = max (strLen s) w := by
  simp only [encodeField, List.length_append, List.length_replicate, strLen]
  omega

theorem encode_length_ge (t : ID3v1) : 128 ≤ (ID3v1.encode t).length := by
  unfold ID3v1.encode
  simp only [List.length_append, List.length_cons, List.length_nil, encodeField_length]
  omega

theorem encode_length_of_fits {t : ID3v1} (h1 : strLen t.title ≤ 30)
    (h2 : strLen t.artist ≤ 30) (h3 : strLen t.album ≤ 30) (h4 : strLen t.year ≤ 4)
    (h5 : strLen t.comment ≤ 30) : (ID3v1.encode t).length = 128 := by
  unfold ID3v1.encode
  simp only [List.length_append, List.length_cons, List.length_nil, encodeField_length]
  omega

theorem dropWhile_zero_replicate_append (k : Nat) (s : List Nat) :
    (List.replicate k 0 ++ s).dropWhile (fun c => c = 0) =
      s.dropWhile (fun c => c = 0) := by
  induction k with
  | zero => rfl
  | succ n ih => simp [List.replicate_succ, List.dropWhile_cons, ih]

theorem trimNul_append_replicate (s : List Nat) (k : Nat) :
    trimNul (s ++ List.replicate k 0) = trimNul s := by
  simp only [trimNul, List.reverse_append, List.reverse_replicate]
  rw [dropWhile_zero_replicate_append]

theorem trim_encodeField {s : List Nat} (w : Nat) (ha : ∀ c ∈ s, c < 128) :
    trimNul (encodeField s w) = trimNul s := by
  unfold encodeField
  rw [strBytes_ascii ha, trimNul_append_replicate]

theorem tryFrom_of_marker {b : List Nat} (hlen : b.length = 128)
    (hmark : b.take 3 = [84, 65, 71]) :
    ID3v1.tryFrom b = .ok
      { title := (b.drop 3).take 30
        artist := (b.drop 33).take 30
        album := (b.drop 63).take 30
        year := (b.drop 93).take 4
        comment := (b.drop 97).take 30
        genre := b.getD 127 0 } := by
  unfold ID3v1.tryFrom
  rw [if_neg (by omega), if_neg (by simp [iso8859_1_from_bytes_id, hmark])]
  simp only [iso8859_1_from_bytes_id]

theorem tryFrom_isOk_iff (b : List Nat) :
    (∃ t, ID3v1.tryFrom b = .ok t) ↔ b.length = 128 ∧ b.take 3 = [84, 65, 71] := by
  constructor
  · rintro ⟨t, ht⟩
    unfold ID3v1.tryFrom at ht
    by_cases h1 : b.length = 128
    · by_cases h2 : b.take 3 = [84, 65, 71]
      · exact ⟨h1, h2⟩
      · rw [if_neg (by omega),
          if_pos (by simp [iso8859_1_from_bytes_id, h2])] at ht
        cases ht
    · rw [if_pos h1] at ht
      cases ht
  · rintro ⟨h1, h2⟩
    exact ⟨_, tryFrom_of_marker h1 h2⟩

theorem tryFrom_eq_error_iff (b : List Nat) :
    ID3v1.tryFrom b = .error .id3 ↔
      (b.length ≠ 128 ∨ b.take 3 ≠ [84, 65, 71]) := by
  constructor
  · intro h
    by_cases h1 : b.length = 128
    · by_cases h2 : b.take 3 = [84, 65, 71]
      · rw [tryFrom_of_marker h1 h2] at h
        cases h
      · exact Or.inr h2
    · exact Or.inl h1
  · intro h
    unfold ID3v1.tryFrom
    by_cases h1 : b.length = 128
    · have h2 : b.take 3 ≠ [84, 65, 71] := by
        rcases h with h | h
        · exact absurd h1 h
        · exact h
      rw [if_neg (by omega), if_pos (by simp [iso8859_1_from_bytes_id, h2])]
    · rw [if_pos h1]

theorem read_ok_iff (contents : List Nat) :
    (∃ t, ID3v1.read contents = .ok t) ↔
      128 ≤ contents.length ∧
        (contents.drop (contents.length - 128)).take 3 = [84, 65, 71] := by
  unfold ID3v1.read
  by_cases h : contents.length < 128
  · rw [if_pos h]
    constructor
    · rintro ⟨t, ht⟩
      cases ht
    · rintro ⟨h1, _⟩
      omega
  · rw [if_neg h]
    rw [tryFrom_isOk_iff]
    have hd : (contents.drop (contents.length - 128)).length = 128 := by
      rw [List.length_drop]
      omega
    constructor
    · rintro ⟨_, h2⟩
      exact ⟨by omega, h2⟩
    · rintro ⟨_, h2⟩
      exact ⟨hd, h2⟩

theorem get_contents_eq (contents : List Nat) :
    ID3v1.get_contents_without_tag contents =
      if 128 ≤ contents.length ∧
          (contents.drop (contents.length - 128)).take 3 = [84, 65, 71]
        then contents.take (contents.length - 128)
        else contents := by
  unfold ID3v1.get_contents_without_tag
  cases hr : ID3v1.read contents with
  | ok t =>
    rw [if_pos ((read_ok_iff contents).mp ⟨t, hr⟩)]
  | error e =>
    rw [if_neg, List.take_length]
    intro hc
    obtain ⟨t, ht⟩ := (read_ok_iff contents).mpr hc
    rw [hr] at ht
    cases ht

theorem write_eq (t : ID3v1) (contents : List Nat) :
    ID3v1.write t contents =
      ID3v1.get_contents_without_tag contents ++ ID3v1.encode t := by
  unfold ID3v1.write
  rw [List.drop_eq_nil_of_le, List.append_nil]
  rw [List.length_append]
  have h1 := encode_length_ge t
  have h2 : contents.length - 128 ≤ (ID3v1.get_contents_without_tag contents).length := by
    rw [get_contents_eq]
    by_cases hc : 128 ≤ contents.length ∧
        (contents.drop (contents.length - 128)).take 3 = [84, 65, 71]
    · rw [if_pos hc, List.length_take]
      omega
    · rw [if_neg hc]
      omega
  omega

theorem encode_append_form (t : ID3v1) :
    ID3v1.encode t =
      [84, 65, 71] ++ (encodeField t.title 30 ++ (encodeField t.artist 30 ++
        (encodeField t.album 30 ++ (encodeField t.year 4 ++
          (encodeField t.comment 30 ++ [t.genre]))))) := by
  unfold ID3v1.encode
  simp only [List.append_assoc]

theorem tryFrom_encode {t : ID3v1} (h1 : strLen t.title ≤ 30)
    (h2 : strLen t.artist ≤ 30) (h3 : strLen t.album ≤ 30) (h4 : strLen t.year ≤ 4)
    (h5 : strLen t.comment ≤ 30) :
    ID3v1.tryFrom (ID3v1.encode t) = .ok
      { title := encodeField t.title 30
        artist := encodeField t.artist 30
        album := encodeField t.album 30
        year := encodeField t.year 4
        comment := encodeField t.comment 30
        genre := t.genre } := by
  have lA : (encodeField t.title 30).length = 30 := by rw [encodeField_length]; omega
  have lB : (encodeField t.artist 30).length = 30 := by rw [encodeField_length]; omega
  have lC : (encodeField t.album 30).length = 30 := by rw [encodeField_length]; omega
  have lD : (encodeField t.year 4).length = 4 := by rw [encodeField_length]; omega
  have lE : (encodeField t.comment 30).length = 30 := by rw [encodeField_length]; omega
  have hlen : (ID3v1.encode t).length = 128 := encode_length_of_fits h1 h2 h3 h4 h5
  have hmark : (ID3v1.encode t).take 3 = [84, 65, 71] := by
    rw [encode_append_form]
    exact List.take_left' rfl
  have hdrop3 : (ID3v1.encode t).drop 3 =
      encodeField t.title 30 ++ (encodeField t.artist 30 ++ (encodeField t.album 30 ++
        (encodeField t.year 4 ++ (encodeField t.comment 30 ++ [t.genre])))) := by
    rw [encode_append_form]
    exact List.drop_left' rfl
  have hdrop33 : (ID3v1.encode t).drop 33 =
      encodeField t.artist 30 ++ (encodeField t.album 30 ++
        (encodeField t.year 4 ++ (encodeField t.comment 30 ++ [t.genre]))) := by
    rw [show (33 : Nat) = 3 + 30 from rfl, ← List.drop_drop, hdrop3,
      List.drop_left' lA]
  have hdrop63 : (ID3v1.encode t).drop 63 =
      encodeField t.album 30 ++
        (encodeField t.year 4 ++ (encodeField t.comment 30 ++ [t.genre])) := by
    rw [show (63 : Nat) = 33 + 30 from rfl, ← List.drop_drop, hdrop33,
      List.drop_left' lB]
  have hdrop93 : (ID3v1.encode t).drop 93 =
      encodeField t.year 4 ++ (encodeField t.comment 30 ++ [t.genre]) := by
    rw [show (93 : Nat) = 63 + 30 from rfl, ← List.drop_drop, hdrop63,
      List.drop_left' lC]
  have hdrop97 : (ID3v1.encode t).drop 97 =
      encodeField t.comment 30 ++ [t.genre] := by
    rw [show (97 : Nat) = 93 + 4 from rfl, ← List.drop_drop, hdrop93,
      List.drop_left' lD]
  have hdrop127 : (ID3v1.encode t).drop 127 = [t.genre] := by
    rw [show (127 : Nat) = 97 + 30 from rfl, ← List.drop_drop, hdrop97,
      List.drop_left' lE]
  have hg : (ID3v1.encode t).getD 127 0 = t.genre := by
    rw [List.getD_eq_getElem?_getD, show (127 : Nat) = 127 + 0 from rfl,
      ← List.getElem?_drop, hdrop127]
    rfl
  rw [tryFrom_of_marker hlen hmark]
  rw [hdrop3, hdrop33, hdrop63, hdrop93, hdrop97, hg]
  rw [List.take_left' lA, List.take_left' lB, List.take_left' lC,
    List.take_left' lD, List.take_left' lE]

/-- Claim C5 (code bug): for genre codes in the unimplemented range 28-191
the lookup `ID3v1.get_genre_str` reaches the `todo!` panic arm, modelled
here as `none`; evaluating it at 28, 100 and 191 exhibits the crash path,
against the requirement of a typed error or sentinel name. -/
theorem c5_genre_todo_panics :
    ID3v1.get_genre_str 28 = none ∧ ID3v1.get_genre_str 100 = none ∧
      ID3v1.get_genre_str 191 = none := by
  decide

/-- Claim C7: `ID3v1.tryFrom` returns the format error exactly when the
input is not a 128-byte buffer or its first 3 bytes are not the marker
"TAG", and succeeds exactly otherwise (so a 128-byte buffer with a wrong
marker fails regardless of the remaining 125 bytes). -/
theorem c7_decode_error_iff (b : List Nat) :
    (ID3v1.tryFrom b = .error .id3 ↔
      (b.length ≠ 128 ∨ b.take 3 ≠ [84, 65, 71])) ∧
    ((∃ t, ID3v1.tryFrom b = .ok t) ↔
      (b.length = 128 ∧ b.take 3 = [84, 65, 71])) :=
  ⟨tryFrom_eq_error_iff b, tryFrom_isOk_iff b⟩

/-- Witness for C7: a 128-byte all-zero buffer has a wrong marker, and
decoding it indeed yields the format error. -/
theorem c7_decode_witness : ID3v1.tryFrom allZeroBuf = .error .id3 :=
  (c7_decode_error_iff allZeroBuf).1.mpr (Or.inr (by decide))

/-- Counterexample for C8: genre code 14 maps to the (misspelled) string
"Rythm and blues" in the source, not to the canonical "Rhythm and blues"
the claim names. -/
theorem c8_genre14_counterexample :
    ID3v1.get_genre_str 14 = some "Rythm and blues" ∧
      ID3v1.get_genre_str 14 ≠ some "Rhythm and blues" := by
  decide

/-- Claim C8 (amended): for every genre code 0-27 except 24 the lookup
returns the fixed name from the source table, which spells code 14 as
"Rythm and blues". -/
theorem c8_genre_names :
    ID3v1.get_genre_str 0 = some "Blues" ∧
    ID3v1.get_genre_str 1 = some "Classic rock" ∧
    ID3v1.get_genre_str 2 = some "Country" ∧
    ID3v1.get_genre_str 3 = some "Dance" ∧
    ID3v1.get_genre_str 4 = some "Disco" ∧
    ID3v1.get_genre_str 5 = some "Funk" ∧
    ID3v1.get_genre_str 6 = some "Grunge" ∧
    ID3v1.get_genre_str 7 = some "Hip-hop" ∧
    ID3v1.get_genre_str 8 = some "Jazz" ∧
    ID3v1.get_genre_str 9 = some "Metal" ∧
    ID3v1.get_genre_str 10 = some "New age" ∧
    ID3v1.get_genre_str 11 = some "Oldies" ∧
    ID3v1.get_genre_str 12 = some "Other" ∧
    ID3v1.get_genre_str 13 = some "Pop" ∧
    ID3v1.get_genre_str 14 = some "Rythm and blues" ∧
    ID3v1.get_genre_str 15 = some "Rap" ∧
    ID3v1.get_genre_str 16 = some "Reggae" ∧
    ID3v1.get_genre_str 17 = some "Rock" ∧
    ID3v1.get_genre_str 18 = some "Techno" ∧
    ID3v1.get_genre_str 19 = some "Industrial" ∧
    ID3v1.get_genre_str 20 = some "Alternative" ∧
    ID3v1.get_genre_str 21 = some "Ska" ∧
    ID3v1.get_genre_str 22 = some "Death Metal" ∧
    ID3v1.get_genre_str 23 = some "Soundtrack" ∧
    ID3v1.get_genre_str 25 = some "Euro-techno" ∧
    ID3v1.get_genre_str 26 = some "Ambient" ∧
    ID3v1.get_genre_str 27 = some "Trip-hop" := by
  decide

/-- Claim C9: the genre lookup returns "Unknown" for code 24 and for every
code in 192-255; in particular 200 maps to "Unknown" and 5 maps to
"Funk". -/
theorem c9_unknown_genres :
    ID3v1.get_genre_str 24 = some "Unknown" ∧
    ID3v1.get_genre_str 5 = some "Funk" ∧
    ID3v1.get_genre_str 200 = some "Unknown" ∧
    ∀ g, 192 ≤ g → g ≤ 255 → ID3v1.get_genre_str g = some "Unknown" := by
  refine ⟨by decide, by decide, by decide, ?_⟩
  intro g hg1 hg2
  unfold ID3v1.get_genre_str
  repeat rw [if_neg (by omega)]

/-- Witness for C9: the range statement applied at the concrete code 230. -/
theorem c9_unknown_witness :
    192 ≤ 230 ∧ 230 ≤ 255 ∧ ID3v1.get_genre_str 230 = some "Unknown" :=
  ⟨by decide, by decide, c9_unknown_genres.2.2.2 230 (by decide) (by decide)⟩

/-- Claim C10: for every 128-byte buffer whose first three bytes are the
"TAG" marker, `ID3v1.tryFrom` succeeds for every value of the genre byte
(the genre table `ID3v1.get_genre_str` is never consulted during decoding)
and stores byte 127 raw in the genre field. -/
theorem c10_decode_ignores_genre_table (b : List Nat) (hlen : b.length = 128)
    (hmark : b.take 3 = [84, 65, 71]) :
    ∃ t, ID3v1.tryFrom b = .ok t ∧ t.genre = b.getD 127 0 :=
  ⟨_, tryFrom_of_marker hlen hmark, rfl⟩

/-- Witness for C10: a marker-carrying buffer whose genre byte is 28, inside
the range whose display lookup panics, still decodes successfully. -/
theorem c10_decode_witness :
    tagBuf28.length = 128 ∧ tagBuf28.take 3 = [84, 65, 71] ∧
      ∃ t, ID3v1.tryFrom tagBuf28 = .ok t ∧ t.genre = 28 := by
  refine ⟨by decide, by decide, ?_⟩
  obtain ⟨t, ht, hg⟩ := c10_decode_ignores_genre_table tagBuf28 (by decide) (by decide)
  refine ⟨t, ht, ?_⟩
  rw [hg]
  decide

/-- Counterexample for C1: encoding `bigTitleTag`, whose title is 31 bytes
long, yields a 129-byte buffer, so `ID3v1.encode` does not always return
exactly 128 bytes and does not truncate oversized fields. -/
theorem c1_encode_not_always_128 :
    (ID3v1.encode bigTitleTag).length = 129 ∧
      (ID3v1.encode bigTitleTag).length ≠ 128 := by
  decide

/-- Claim C1 (amended): `ID3v1.encode` is total, and for every Tag whose
text fields are within their fixed byte widths it returns a buffer of
exactly 128 bytes; an oversized text field is emitted in full (yielding a
longer buffer) rather than truncated or rejected. -/
theorem c1_encode_length_of_fits (t : ID3v1) (h1 : strLen t.title ≤ 30)
    (h2 : strLen t.artist ≤ 30) (h3 : strLen t.album ≤ 30)
    (h4 : strLen t.year ≤ 4) (h5 : strLen t.comment ≤ 30) :
    (ID3v1.encode t).length = 128 :=
  encode_length_of_fits h1 h2 h3 h4 h5

/-- Witness for C1: the in-width tag `hiTag` encodes to exactly 128 bytes. -/
theorem c1_encode_length_witness :
    strLen hiTag.title ≤ 30 ∧ (ID3v1.encode hiTag).length = 128 :=
  ⟨by decide, c1_encode_length_of_fits hiTag (by decide) (by decide) (by decide)
    (by decide) (by decide)⟩

/-- Counterexample for C2: in the encoding of `bigTitleTag` (31-byte title,
artist "b") the byte at offset 33, the first byte of the artist slot, is
97 (the 31st title byte) and not 98 (the first artist byte): the oversized
title overflows into the adjacent slot. -/
theorem c2_overflow_counterexample :
    (ID3v1.encode bigTitleTag).getD 33 0 = 97 ∧
      (strBytes bigTitleTag.artist).getD 0 0 = 98 ∧ (97 : Nat) ≠ 98 := by
  decide

/-- Claim C2 (amended): a text field longer than its fixed width is emitted
in full: the slot holds the first `width` bytes of the field, and the
remaining bytes spill into the adjacent slot, whose first position holds
the 31st byte of the field instead of the next field (shown for the title
field; all five fields share the same encoding path). -/
theorem c2_oversized_title_spills (t : ID3v1) (h : 31 ≤ strLen t.title) :
    ((ID3v1.encode t).drop 3).take (strLen t.title) = strBytes t.title ∧
      (ID3v1.encode t).getD 33 0 = (strBytes t.title).getD 30 0 := by
  have hfield : encodeField t.title 30 = strBytes t.title := by
    unfold encodeField
    rw [show 30 - strLen t.title = 0 from by omega]
    simp
  have hdrop3 : (ID3v1.encode t).drop 3 =
      strBytes t.title ++ (encodeField t.artist 30 ++ (encodeField t.album 30 ++
        (encodeField t.year 4 ++ (encodeField t.comment 30 ++ [t.genre])))) := by
    rw [encode_append_form, hfield]
    exact List.drop_left' rfl
  constructor
  · rw [hdrop3]
    exact List.take_left' rfl
  · rw [List.getD_eq_getElem?_getD, show (33 : Nat) = 3 + 30 from rfl,
      ← List.getElem?_drop, hdrop3, List.getD_eq_getElem?_getD,
      List.getElem?_append_left (by simp only [strLen] at h; omega)]

/-- Witness for C2: the oversized-title statement applied to the concrete
tag `bigTitleTag`. -/
theorem c2_spill_witness :
    31 ≤ strLen bigTitleTag.title ∧
      ((ID3v1.encode bigTitleTag).drop 3).take (strLen bigTitleTag.title) =
        strBytes bigTitleTag.title :=
  ⟨by decide, (c2_oversized_title_spills bigTitleTag (by decide)).1⟩

/-- Counterexample for C4: `accentTag` has title "é" (one character, two
UTF-8 bytes, well within the 30-byte width), yet decoding its encoding
yields the title "Ã©" (code points 195, 169), which trimming does not
bring back to the original: the encoder writes UTF-8 bytes while the
decoder reads each byte as its own character. -/
theorem c4_roundtrip_counterexample :
    (ID3v1.tryFrom (ID3v1.encode accentTag)).map (fun d => trimNul d.title) =
      .ok [195, 169] ∧
    trimNul accentTag.title = [233] ∧ ([195, 169] : List Nat) ≠ [233] := by
  decide

/-- Claim C4 (amended): for every Tag whose text fields consist of ASCII
characters (code points below 128, hence one byte per character) and fit
their fixed widths, decoding the encoding succeeds and returns a Tag equal
to the original up to trailing-NUL trimming of every text field, with the
genre preserved exactly. -/
theorem c4_roundtrip_of_fits_ascii (t : ID3v1)
    (h1 : strLen t.title ≤ 30) (h2 : strLen t.artist ≤ 30)
    (h3 : strLen t.album ≤ 30) (h4 : strLen t.year ≤ 4)
    (h5 : strLen t.comment ≤ 30)
    (a1 : ∀ c ∈ t.title, c < 128) (a2 : ∀ c ∈ t.artist, c < 128)
    (a3 : ∀ c ∈ t.album, c < 128) (a4 : ∀ c ∈ t.year, c < 128)
    (a5 : ∀ c ∈ t.comment, c < 128) :
    ∃ d, ID3v1.tryFrom (ID3v1.encode t) = .ok d ∧ d.genre = t.genre ∧
      trimNul d.title = trimNul t.title ∧ trimNul d.artist = trimNul t.artist ∧
      trimNul d.album = trimNul t.album ∧ trimNul d.year = trimNul t.year ∧
      trimNul d.comment = trimNul t.comment :=
  ⟨_, tryFrom_encode h1 h2 h3 h4 h5, rfl, trim_encodeField 30 a1,
    trim_encodeField 30 a2, trim_encodeField 30 a3, trim_encodeField 4 a4,
    trim_encodeField 30 a5⟩

/-- Witness for C4: the round-trip statement applied to the concrete ASCII
tag `hiTag`. -/
theorem c4_roundtrip_witness :
    strLen hiTag.title ≤ 30 ∧ (∀ c ∈ hiTag.title, c < 128) ∧
      ∃ d, ID3v1.tryFrom (ID3v1.encode hiTag) = .ok d ∧ d.genre = hiTag.genre ∧
        trimNul d.title = trimNul hiTag.title ∧
        trimNul d.artist = trimNul hiTag.artist ∧
        trimNul d.album = trimNul hiTag.album ∧
        trimNul d.year = trimNul hiTag.year ∧
        trimNul d.comment = trimNul hiTag.comment :=
  ⟨by decide, by decide, c4_roundtrip_of_fits_ascii hiTag (by decide) (by decide)
    (by decide) (by decide) (by decide) (by decide) (by decide) (by decide)
    (by decide) (by decide)⟩

/-- Claim C6: `ID3v1.get_contents_without_tag` returns exactly the first
`length - 128` bytes when the final 128 bytes decode as a valid tag (the
stream is at least 128 bytes long and carries the "TAG" marker at offset
`length - 128`), and returns the entire contents unchanged when the stream
is too short or the marker is wrong. -/
theorem c6_strip_trailing_tag (contents : List Nat) :
    (128 ≤ contents.length →
      (contents.drop (contents.length - 128)).take 3 = [84, 65, 71] →
      ID3v1.get_contents_without_tag contents =
          contents.take (contents.length - 128) ∧
        (ID3v1.get_contents_without_tag contents).length =
          contents.length - 128) ∧
    (contents.length < 128 ∨
        (contents.drop (contents.length - 128)).take 3 ≠ [84, 65, 71] →
      ID3v1.get_contents_without_tag contents = contents) := by
  constructor
  · intro hl hm
    rw [get_contents_eq, if_pos ⟨hl, hm⟩]
    refine ⟨rfl, ?_⟩
    rw [List.length_take]
    omega
  · intro h
    have hc : ¬(128 ≤ contents.length ∧
        (contents.drop (contents.length - 128)).take 3 = [84, 65, 71]) := by
      rintro ⟨h1, h2⟩
      rcases h with h | h
      · omega
      · exact h h2
    rw [get_contents_eq, if_neg hc]

/-- Witness for C6: a single 128-byte tag block strips to the empty prefix,
and a 3-byte stream is returned unchanged. -/
theorem c6_strip_witness :
    (ID3v1.get_contents_without_tag plainTagBuf).length =
        plainTagBuf.length - 128 ∧
      ID3v1.get_contents_without_tag [1, 2, 3] = [1, 2, 3] :=
  ⟨((c6_strip_trailing_tag plainTagBuf).1 (by decide) (by decide)).2,
    (c6_strip_trailing_tag [1, 2, 3]).2 (Or.inl (by decide))⟩

/-- Counterexample for C3: writing `bigTitleTag` (31-byte title) into an
empty stream yields 129 bytes where the claim predicts 0 + 128, and
writing `accentTag` (title "é") into an empty stream yields a trailing
block whose decoded, trimmed title is [195, 169], not the written [233]:
the claim fails for oversized fields and for non-ASCII characters. -/
theorem c3_write_counterexample :
    (ID3v1.write bigTitleTag []).length = 129 ∧ (129 : Nat) ≠ 0 + 128 ∧
    (ID3v1.tryFrom ((ID3v1.write accentTag []).drop 0)).map
        (fun d => trimNul d.title) = .ok [195, 169] ∧
    trimNul accentTag.title = [233] ∧ ([195, 169] : List Nat) ≠ [233] := by
  decide

/-- Claim C3 (amended): for every Tag with ASCII text fields within their
fixed widths, after `ID3v1.write` the stream length equals (original
length minus 128 if a valid trailing tag was present, else original
length) plus 128, the bytes before the tag position are unchanged, and the
trailing 128 bytes decode to a Tag with the same genre whose text fields
match the written ones up to trailing-NUL trimming. -/
theorem c3_write_correct (t : ID3v1) (contents : List Nat)
    (h1 : strLen t.title ≤ 30) (h2 : strLen t.artist ≤ 30)
    (h3 : strLen t.album ≤ 30) (h4 : strLen t.year ≤ 4)
    (h5 : strLen t.comment ≤ 30)
    (a1 : ∀ c ∈ t.title, c < 128) (a2 : ∀ c ∈ t.artist, c < 128)
    (a3 : ∀ c ∈ t.album, c < 128) (a4 : ∀ c ∈ t.year, c < 128)
    (a5 : ∀ c ∈ t.comment, c < 128) :
    (ID3v1.write t contents).length =
      (if 128 ≤ contents.length ∧
          (contents.drop (contents.length - 128)).take 3 = [84, 65, 71]
        then contents.length - 128 else contents.length) + 128 ∧
    (ID3v1.write t contents).take
        (ID3v1.get_contents_without_tag contents).length =
      contents.take (ID3v1.get_contents_without_tag contents).length ∧
    ∃ d, ID3v1.tryFrom ((ID3v1.write t contents).drop
          (ID3v1.get_contents_without_tag contents).length) = .ok d ∧
      d.genre = t.genre ∧
      trimNul d.title = trimNul t.title ∧ trimNul d.artist = trimNul t.artist ∧
      trimNul d.album = trimNul t.album ∧ trimNul d.year = trimNul t.year ∧
      trimNul d.comment = trimNul t.comment := by
  have hw := write_eq t contents
  have hk : (ID3v1.get_contents_without_tag contents).length =
      if 128 ≤ contents.length ∧
          (contents.drop (contents.length - 128)).take 3 = [84, 65, 71]
        then contents.length - 128 else contents.length := by
    rw [get_contents_eq]
    by_cases hc : 128 ≤ contents.length ∧
        (contents.drop (contents.length - 128)).take 3 = [84, 65, 71]
    · rw [if_pos hc, if_pos hc, List.length_take]
      omega
    · rw [if_neg hc, if_neg hc]
  refine ⟨?_, ?_, ?_⟩
  · rw [hw, List.length_append, encode_length_of_fits h1 h2 h3 h4 h5, hk]
  · rw [hw, List.take_left]
    by_cases hc : 128 ≤ contents.length ∧
        (contents.drop (contents.length - 128)).take 3 = [84, 65, 71]
    · rw [get_contents_eq, if_pos hc, List.length_take,
        show min (contents.length - 128) contents.length =
          contents.length - 128 from by omega]
    · rw [get_contents_eq, if_neg hc, List.take_length]
  · rw [hw, List.drop_left]
    exact ⟨_, tryFrom_encode h1 h2 h3 h4 h5, rfl, trim_encodeField 30 a1,
      trim_encodeField 30 a2, trim_encodeField 30 a3, trim_encodeField 4 a4,
      trim_encodeField 30 a5⟩

/-- Witness for C3: the end-to-end scenario of the spec, replacing the tag
of a 428-byte stream (300 filler bytes plus a valid tag) with `newTag`
keeps the length at 428 and leaves the first 300 bytes unchanged. -/
theorem c3_write_witness :
    (ID3v1.write newTag demoContents).length = 428 ∧
      (ID3v1.write newTag demoContents).take 300 = demoContents.take 300 := by
  have h := c3_write_correct newTag demoContents (by decide) (by decide)
    (by decide) (by decide) (by decide) (by decide) (by decide) (by decide)
    (by decide) (by decide)
  constructor
  · rw [h.1]
    decide
  · have h2 := h.2.1
    rw [show (ID3v1.get_contents_without_tag demoContents).length = 300 from
      by decide] at h2
    exact h2
